import Mathlib

/-!
Verification development for the WhatsApp gateway session supervisor
(`src/sessionManager.ts`).  TypeScript strings are modelled as `List Char`,
JavaScript objects/records as Lean structures, the in-memory caches as
association lists, and timestamps (`Date.now()`) as natural numbers in
milliseconds.  Side effects (socket close, credential deletion, webhook
dispatch, cache persistence) are modelled as explicit action traces.
-/

set_option maxRecDepth 10000

/-- TypeScript strings, modelled as lists of characters. -/
abbrev Str := List Char

/-- Model of `s.replace(/\D/g, "")`: keep only decimal digits. -/
def filterDigits (s : Str) : Str := s.filter (fun c => c.isDigit)

/-- Model of `s.split(ch)` restricted to what the code uses: the part before
the first occurrence of `ch`, and (when `ch` occurs) the remainder after it. -/
def breakAt (ch : Char) : Str → Str × Option Str
  | [] => ([], none)
  | c :: cs =>
    if c == ch then ([], some cs)
    else
      let r := breakAt ch cs
      (c :: r.1, r.2)

/-- The user part of a JID: `jid.split("@")[0]`. -/
def userPartOf (j : Str) : Str := (breakAt '@' j).1

/-- The server part of a JID: `jid.split("@")[1]` (may be absent). -/
def serverPartOf (j : Str) : Option Str :=
  match (breakAt '@' j).2 with
  | some rest => some ((breakAt '@' rest).1)
  | none => none

/-- JavaScript truthiness of an optional string (`undefined`/`null`/`""` are falsy). -/
def truthyOptStr : Option Str → Bool
  | some s => s != []
  | none => false

/-- Value of an optional string, `undefined` collapsing to the empty string. -/
def optStrVal : Option Str → Str
  | some s => s
  | none => []

/-- JavaScript `a || b` on strings. -/
def jsOrStr (a b : Str) : Str := if a = [] then b else a

/-- Left-trim of whitespace. -/
def trimLeft (s : Str) : Str := s.dropWhile (fun c => c.isWhitespace)

/-- Model of `s.trim()`. -/
def trimStr (s : Str) : Str := trimLeft ((trimLeft s.reverse).reverse)

/-- The phone-domain suffix `"@s.whatsapp.net"`. -/
def pnSuffix : Str := "@s.whatsapp.net".toList

/-- `isPnJid` from the source: a non-empty JID ending in `"@s.whatsapp.net"`. -/
def isPnJid (j : Str) : Bool := (j != []) && pnSuffix.isSuffixOf j

/-- `isLidJid` from the source: a non-empty JID ending in `"@lid"`. -/
def isLidJid (j : Str) : Bool := (j != []) && ("@lid".toList).isSuffixOf j

/-- `normalizeJidToPhone` from the source: digits of the user part (before any
`:` device suffix); `@lid` JIDs are unresolvable; 9-digit results get the
default country code `"51"`; results outside 10–15 digits are rejected. -/
def normalizeJidToPhone (jid : Option Str) : Option Str :=
  match jid with
  | none => none
  | some j =>
    if j = [] then none
    else
      let userPart := userPartOf j
      if serverPartOf j = some ("lid".toList) then none
      else
        let base := (breakAt ':' userPart).1
        let digits := filterDigits base
        if digits = [] then none
        else
          let digits2 := if digits.length = 9 then "51".toList ++ digits else digits
          if 10 ≤ digits2.length ∧ digits2.length ≤ 15 then some digits2 else none

/-- `normalizePhoneToJid` from the source: strip non-digits, prefix `"51"` onto
9-digit numbers, and append the phone-domain suffix. -/
def normalizePhoneToJid (phone : Str) : Str :=
  let digits := filterDigits phone
  let digits2 := if digits.length = 9 then "51".toList ++ digits else digits
  digits2 ++ pnSuffix

/-- `extractPhoneFromPnJid` from the source. -/
def extractPhoneFromPnJid (jid : Str) : Option Str :=
  if !(isPnJid jid) then none
  else
    let user := userPartOf jid
    if user = [] then none
    else
      let base := (breakAt ':' user).1
      let digits := filterDigits base
      if digits = [] then none
      else if digits.length = 9 then some ("51".toList ++ digits)
      else if 10 ≤ digits.length ∧ digits.length ≤ 15 then some digits
      else none

-- ------------------------------------------------------------------
-- association lists: the in-memory `lidToPhoneCache` object
-- ------------------------------------------------------------------

/-- Lookup in a JavaScript-object-like association list (`obj[key]`). -/
def alookup {β : Type} : List (Str × β) → Str → Option β
  | [], _ => none
  | (k, v) :: rest, key => if k = key then some v else alookup rest key

/-- Keyed assignment `obj[key] = val` (replaces an existing binding). -/
def aset {β : Type} : List (Str × β) → Str → β → List (Str × β)
  | [], key, val => [(key, val)]
  | (k, v) :: rest, key, val =>
    if k = key then (key, val) :: rest else (k, v) :: aset rest key val

/-- Keyed removal `delete obj[key]`. -/
def aremove {β : Type} : List (Str × β) → Str → List (Str × β)
  | [], _ => []
  | (k, v) :: rest, key =>
    if k = key then aremove rest key else (k, v) :: aremove rest key

/-- In-place update of the binding at `key`. -/
def aupdate {β : Type} (f : β → β) : List (Str × β) → Str → List (Str × β)
  | [], _ => []
  | (k, v) :: rest, key =>
    if k = key then (k, f v) :: aupdate f rest key
    else (k, v) :: aupdate f rest key

theorem alookup_aset_self {β : Type} (l : List (Str × β)) (k : Str) (v : β) :
    alookup (aset l k v) k = some v := by
  induction l with
  | nil => simp [aset, alookup]
  | cons kv rest ih =>
    by_cases h : kv.1 = k
    · simp [aset, alookup, h]
    · simp [aset, alookup, h, ih]

theorem alookup_aset_ne {β : Type} (l : List (Str × β)) (k k' : Str) (v : β)
    (h : k' ≠ k) : alookup (aset l k v) k' = alookup l k' := by
  have h' : ¬ k = k' := fun hh => h hh.symm
  induction l with
  | nil => simp [aset, alookup, h']
  | cons kv rest ih =>
    by_cases hk : kv.1 = k
    · simp [aset, alookup, hk, h']
    · by_cases hk' : kv.1 = k'
      · simp [aset, alookup, hk, hk', h]
      · simp [aset, alookup, hk, hk', ih]

theorem alookup_aupdate_self {β : Type} (f : β → β) (l : List (Str × β)) (k : Str) :
    alookup (aupdate f l k) k = (alookup l k).map f := by
  induction l with
  | nil => simp [aupdate, alookup]
  | cons kv rest ih =>
    by_cases h : kv.1 = k
    · simp [aupdate, alookup, h]
    · simp [aupdate, alookup, h, ih]

theorem alookup_aupdate_ne {β : Type} (f : β → β) (l : List (Str × β)) (k k' : Str)
    (h : k' ≠ k) : alookup (aupdate f l k) k' = alookup l k' := by
  have h' : ¬ k = k' := fun hh => h hh.symm
  induction l with
  | nil => simp [aupdate, alookup]
  | cons kv rest ih =>
    by_cases hk : kv.1 = k
    · simp [aupdate, alookup, hk, h', ih]
    · by_cases hk' : kv.1 = k'
      · simp [aupdate, alookup, hk, hk', h]
      · simp [aupdate, alookup, hk, hk', ih]

-- ------------------------------------------------------------------
-- bulk-migration hint and identity resolution
-- ------------------------------------------------------------------

/-- The process-wide Bulk-Hint: `lastBulkFromJid`, `lastBulkPhone`,
`lastBulkSeenAt` (0 meaning "never observed"). -/
structure BulkHint where
  fromJid : Option Str
  phone : Option Str
  seenAt : Nat
deriving DecidableEq

/-- The hint's phone value (the guards ensure it is only read when truthy). -/
def bulkPhoneVal (b : BulkHint) : Str := optStrVal b.phone

/-- Process-wide mutable state touched by inbound-message handling:
the `lidToPhoneCache` map and the Bulk-Hint. -/
structure MsgState where
  cache : List (Str × Str)
  bulk : BulkHint
deriving DecidableEq

/-- Result of `resolveJidAndPhone`, including the cache after any
write-through. -/
structure ResolveResult where
  resolvedJid : Str
  phone : Option Str
  cache : List (Str × Str)
deriving DecidableEq

/-- Steps 2.b/2.c of `resolveJidAndPhone`: try the transport's internal
`lidMapping.getPNForLID` (modelled as an optional partial function), caching a
usable result; otherwise keep the LID with no phone. -/
def resolveLidFallback (lidMapping : Option (Str → Option Str))
    (cache : List (Str × Str)) (jidForPhone : Str) : ResolveResult :=
  match lidMapping with
  | some getPN =>
    match getPN jidForPhone with
    | some pnJid =>
      if pnJid ≠ [] ∧ isPnJid pnJid = true then
        match extractPhoneFromPnJid pnJid with
        | some extracted =>
          if extracted ≠ [] then
            ⟨pnJid, some extracted, aset cache jidForPhone extracted⟩
          else ⟨jidForPhone, none, cache⟩
        | none => ⟨jidForPhone, none, cache⟩
      else ⟨jidForPhone, none, cache⟩
    | none => ⟨jidForPhone, none, cache⟩
  | none => ⟨jidForPhone, none, cache⟩

/-- `resolveJidAndPhone` from the source: phone-domain JIDs resolve directly;
LID JIDs consult the cache, then the transport's internal mapping
(write-through), then degrade to the LID itself; other JIDs fall back to
`normalizeJidToPhone`. -/
def resolveJidAndPhone (lidMapping : Option (Str → Option Str))
    (cache : List (Str × Str)) (jidForPhone : Str) : ResolveResult :=
  if isPnJid jidForPhone then
    ⟨jidForPhone, extractPhoneFromPnJid jidForPhone, cache⟩
  else if isLidJid jidForPhone then
    match alookup cache jidForPhone with
    | some cachedPhone =>
      if cachedPhone ≠ [] then
        ⟨cachedPhone ++ pnSuffix, some cachedPhone, cache⟩
      else resolveLidFallback lidMapping cache jidForPhone
    | none => resolveLidFallback lidMapping cache jidForPhone
  else
    ⟨jidForPhone, normalizeJidToPhone (some jidForPhone), cache⟩

-- ------------------------------------------------------------------
-- inbound messages (`handleMessagesUpsert`)
-- ------------------------------------------------------------------

/-- The two plain-text shapes the code reads
(`conversation` and `extendedTextMessage.text`). -/
structure TextShapes where
  conversation : Option Str
  extendedText : Option Str
deriving DecidableEq

/-- Message content: the top-level text shapes plus the same shapes nested
inside `ephemeralMessage.message`. -/
structure MsgContent where
  top : TextShapes
  ephemeral : Option TextShapes
deriving DecidableEq

/-- The text-extraction chain
`conversation || extendedTextMessage.text || ephemeral… || ""`. -/
def extractText (c : Option MsgContent) : Str :=
  match c with
  | none => []
  | some m =>
    jsOrStr (optStrVal m.top.conversation)
      (jsOrStr (optStrVal m.top.extendedText)
        (jsOrStr
          (optStrVal (match m.ephemeral with
            | some e => e.conversation
            | none => none))
          (optStrVal (match m.ephemeral with
            | some e => e.extendedText
            | none => none))))

/-- An inbound message: `msg.key.remoteJid`, `msg.key.participant`,
`msg.key.fromMe`, `msg.key.id`, and `msg.message`. -/
structure WAMessage where
  remoteJid : Option Str
  participant : Option Str
  fromMe : Bool
  msgId : Option Str
  content : Option MsgContent
deriving DecidableEq

/-- The webhook payload composed for each forwarded message (`from` is
rendered as `fromId` since `from` is reserved). -/
structure Payload where
  sessionId : Str
  fromId : Str
  phone : Option Str
  text : Str
  mtype : Str
  msgId : Option Str
  remoteJid : Str
  participantJid : Option Str
deriving DecidableEq

/-- Observable effects of processing one inbound message: a best-effort
rewrite of the cache to durable storage (`saveLidCacheToDisk`, whose errors
are caught and only logged), and a fire-and-forget webhook dispatch. -/
inductive MAction where
  | persist
  | webhook (payload : Payload)
deriving DecidableEq

/-- Processing of a single message from the `messages.upsert` loop body.
`lidMapping` models `session.sock.signalRepository?.lidMapping`, `now` models
`Date.now()`, `mtype` the upsert's `type`. -/
def processMessage (lidMapping : Option (Str → Option Str)) (sessionId : Str)
    (st : MsgState) (msg : WAMessage) (now : Nat) (mtype : Str) :
    MsgState × List MAction :=
  let participantJid : Option Str :=
    match msg.participant with
    | some p => if p = [] then none else some p
    | none => none
  let text := extractText msg.content
  match msg.remoteJid with
  | none => (st, [])
  | some remoteJid =>
    if remoteJid = [] then (st, [])
    else
      -- debug block: if the conversation JID is a LID and any bulk hint was
      -- ever recorded, assume its phone maps this LID and persist the cache
      let seeded :=
        isLidJid remoteJid && truthyOptStr st.bulk.fromJid &&
          truthyOptStr st.bulk.phone && (st.bulk.seenAt != 0)
      let st1 :=
        if seeded then
          { st with cache := aset st.cache remoteJid (bulkPhoneVal st.bulk) }
        else st
      let acts1 : List MAction := if seeded then [MAction.persist] else []
      if msg.fromMe then (st1, acts1)
      else if trimStr text = [] then (st1, acts1)
      else
        let jidForPhone :=
          match participantJid with
          | some p => p
          | none => remoteJid
        -- step 1.5: seed from a recent bulk hint, only if no entry exists
        let st2 :=
          if isLidJid jidForPhone && truthyOptStr st1.bulk.phone &&
              truthyOptStr st1.bulk.fromJid &&
              decide (now - st1.bulk.seenAt < 5000) &&
              !(truthyOptStr (alookup st1.cache jidForPhone)) then
            { st1 with cache := aset st1.cache jidForPhone (bulkPhoneVal st1.bulk) }
          else st1
        let r := resolveJidAndPhone lidMapping st2.cache jidForPhone
        let st3 := { st2 with cache := r.cache }
        let fromId :=
          match r.phone with
          | some p => if p = [] then r.resolvedJid else p
          | none => r.resolvedJid
        let payload : Payload :=
          ⟨sessionId, fromId, r.phone, text, mtype, msg.msgId, r.resolvedJid,
            participantJid⟩
        (st3, acts1 ++ [MAction.webhook payload])

/-- `handleMessagesUpsert`: fold `processMessage` over the batch. -/
def handleMessagesUpsert (lidMapping : Option (Str → Option Str))
    (sessionId : Str) (st : MsgState) (msgs : List WAMessage) (now : Nat)
    (mtype : Str) : MsgState × List MAction :=
  msgs.foldl
    (fun acc msg =>
      let r := processMessage lidMapping sessionId acc.1 msg now mtype
      (r.1, acc.2 ++ r.2))
    (st, [])

-- ------------------------------------------------------------------
-- session supervisor
-- ------------------------------------------------------------------

/-- Session lifecycle states. -/
inductive SessionStatus where
  | starting | qr | online | disconnected | error
deriving DecidableEq

/-- One session record.  The live socket handle is modelled by an identifier
`sockId`; `createdAt`/`updatedAt` are millisecond timestamps. -/
structure SessionS where
  sessionId : Str
  status : SessionStatus
  sockId : Nat
  webhookUrl : Option Str
  lastQr : Option Str
  createdAt : Nat
  updatedAt : Nat
deriving DecidableEq

/-- Supervisor state: the `sessions` table, the set of sessionIds whose
durable credential folder `./sessions/<id>` exists on disk, and a counter
supplying fresh socket handles. -/
structure SupState where
  sessions : List (Str × SessionS)
  credsOnDisk : List Str
  nextSockId : Nat
deriving DecidableEq

/-- Observable supervisor effects, in execution order. -/
inductive SupAction where
  | setStatus (sessionId : Str) (status : SessionStatus)
  | closeSock (sockId : Nat)
  | removeSession (sessionId : Str)
  | deleteCreds (sessionId : Str)
  | startAttempt (sessionId : Str)
  | newSock (sockId : Nat)
deriving DecidableEq

/-- Result of a `startSession` call. -/
inductive StartResult where
  | invalidId
  | reused (s : SessionS)
  | started (s : SessionS)
  | failed
deriving DecidableEq

/-- The `sessionId` pattern check `/^[a-zA-Z0-9_\-]+$/`. -/
def isSessionIdChar (c : Char) : Bool :=
  c.isAlpha || c.isDigit || (c == '_') || (c == '-')

/-- `!sessionId || !pattern.test(sessionId)` (negated). -/
def validSessionId (s : Str) : Bool := (s != []) && s.all isSessionIdChar

/-- In-place update of one session in the table. -/
def updateSession (st : SupState) (sessionId : Str) (f : SessionS → SessionS) :
    SupState :=
  { st with sessions := aupdate f st.sessions sessionId }

/-- `mkdir`-like effect of `useMultiFileAuthState`: the credential folder
exists afterwards. -/
def insertCred (l : List Str) (sid : Str) : List Str :=
  if l.contains sid then l else sid :: l

/-- Webhook update performed on an existing session:
`if (webhookUrl && existing.webhookUrl !== webhookUrl) { … }`. -/
def maybeUpdateWebhook (s : SessionS) (webhookUrl : Option Str) (now : Nat) :
    SessionS :=
  if truthyOptStr webhookUrl = true ∧ s.webhookUrl ≠ webhookUrl then
    { s with webhookUrl := webhookUrl, updatedAt := now }
  else s

/-- The creation tail of `startSession` (from `useMultiFileAuthState` through
`makeWASocket` and table insertion); `startFails` models a rejection of any of
the awaited transport calls, which leaves the table untouched. -/
def startFresh (st : SupState) (sessionId : Str) (webhookUrl : Option Str)
    (now : Nat) (startFails : Bool) (acts0 : List SupAction) :
    SupState × List SupAction × StartResult :=
  if startFails then (st, acts0, StartResult.failed)
  else
    let s : SessionS :=
      ⟨sessionId, SessionStatus.starting, st.nextSockId, webhookUrl, none, now, now⟩
    ({ st with
        sessions := aset st.sessions sessionId s,
        credsOnDisk := insertCred st.credsOnDisk sessionId,
        nextSockId := st.nextSockId + 1 },
      acts0 ++ [SupAction.newSock st.nextSockId], StartResult.started s)

/-- `startSession` from the source: validate the id; reuse an existing
session in `starting | qr | online` (optionally updating the webhook URL);
close and rebuild a session in `disconnected | error`; otherwise create. -/
def startSession (st : SupState) (sessionId : Str) (webhookUrl : Option Str)
    (now : Nat) (startFails : Bool) : SupState × List SupAction × StartResult :=
  if validSessionId sessionId = false then (st, [], StartResult.invalidId)
  else
    match alookup st.sessions sessionId with
    | some existing =>
      let existing2 := maybeUpdateWebhook existing webhookUrl now
      let st2 := { st with sessions := aset st.sessions sessionId existing2 }
      if existing2.status = SessionStatus.online ∨
          existing2.status = SessionStatus.qr ∨
          existing2.status = SessionStatus.starting then
        (st2, [], StartResult.reused existing2)
      else
        startFresh st2 sessionId webhookUrl now startFails
          [SupAction.closeSock existing2.sockId]
    | none => startFresh st sessionId webhookUrl now startFails []

/-- `clearSession` from the source: close and drop the session when present;
then delete the credential folder when it exists on disk — unconditionally on
table presence. -/
def clearSession (st : SupState) (sessionId : Str) : SupState × List SupAction :=
  let r1 : SupState × List SupAction :=
    match alookup st.sessions sessionId with
    | some s =>
      ({ st with sessions := aremove st.sessions sessionId },
        [SupAction.closeSock s.sockId, SupAction.removeSession sessionId])
    | none => (st, [])
  if r1.1.credsOnDisk.contains sessionId then
    ({ r1.1 with credsOnDisk := r1.1.credsOnDisk.filter (fun x => x != sessionId) },
      r1.2 ++ [SupAction.deleteCreds sessionId])
  else r1

/-- Baileys `DisconnectReason.loggedOut`. -/
def DisconnectReasonLoggedOut : Int := 401

/-- Connection states carried by a `connection.update` event. -/
inductive ConnState where
  | connOpen | connClose | connecting
deriving DecidableEq

/-- A `connection.update` event; `statusCode` models
`rawError?.output?.statusCode ?? rawError?.code`. -/
structure ConnUpdate where
  qr : Option Str
  connection : Option ConnState
  statusCode : Option Int
deriving DecidableEq

/-- The `connection === "close"` branch of `handleConnectionUpdate`.  The
handler closes over the session object; we model it through a table lookup and
state the theorems under the (invariant) hypothesis that the session is
present.  `startFails` models a rejection of the reconnect `startSession`
promise, whose `.catch` sets the session status to `error` only in the
transient branch. -/
def handleClose (st : SupState) (sessionId : Str) (statusCode : Option Int)
    (now : Nat) (startFails : Bool) : SupState × List SupAction :=
  let stc := updateSession st sessionId
    (fun s => { s with status := SessionStatus.disconnected, updatedAt := now })
  let isLoggedOut := statusCode = some DisconnectReasonLoggedOut
  let isRestartRequired := statusCode = some (515 : Int)
  match alookup stc.sessions sessionId with
  | none => (stc, [SupAction.setStatus sessionId SessionStatus.disconnected])
  | some s =>
    if isRestartRequired then
      let st1 := { stc with sessions := aremove stc.sessions sessionId }
      let r := startSession st1 sessionId s.webhookUrl now startFails
      (r.1,
        [SupAction.setStatus sessionId SessionStatus.disconnected,
         SupAction.closeSock s.sockId, SupAction.removeSession sessionId,
         SupAction.startAttempt sessionId] ++ r.2.1)
    else if ¬ isLoggedOut then
      let r := startSession stc sessionId s.webhookUrl now startFails
      match r.2.2 with
      | StartResult.started _ =>
        (r.1, [SupAction.setStatus sessionId SessionStatus.disconnected,
               SupAction.startAttempt sessionId] ++ r.2.1)
      | StartResult.reused _ =>
        (r.1, [SupAction.setStatus sessionId SessionStatus.disconnected,
               SupAction.startAttempt sessionId] ++ r.2.1)
      | _ =>
        (updateSession r.1 sessionId
            (fun s3 => { s3 with status := SessionStatus.error }),
          [SupAction.setStatus sessionId SessionStatus.disconnected,
           SupAction.startAttempt sessionId] ++ r.2.1 ++
            [SupAction.setStatus sessionId SessionStatus.error])
    else
      let c := clearSession stc sessionId
      let r := startSession c.1 sessionId s.webhookUrl now startFails
      (r.1,
        [SupAction.setStatus sessionId SessionStatus.disconnected] ++ c.2 ++
          [SupAction.startAttempt sessionId] ++ r.2.1)

/-- `handleConnectionUpdate` from the source: the `qr`, `open` and `close`
branches in order. -/
def handleConnectionUpdate (st : SupState) (sessionId : Str) (u : ConnUpdate)
    (now : Nat) (startFails : Bool) : SupState × List SupAction :=
  let r1 : SupState × List SupAction :=
    match u.qr with
    | some q =>
      if q = [] then (st, [])
      else
        (updateSession st sessionId
            (fun s => { s with status := SessionStatus.qr, lastQr := some q,
                               updatedAt := now }),
          [SupAction.setStatus sessionId SessionStatus.qr])
    | none => (st, [])
  let r2 : SupState × List SupAction :=
    if u.connection = some ConnState.connOpen then
      (updateSession r1.1 sessionId
          (fun s => { s with status := SessionStatus.online, lastQr := none,
                             updatedAt := now }),
        r1.2 ++ [SupAction.setStatus sessionId SessionStatus.online])
    else r1
  if u.connection = some ConnState.connClose then
    let r := handleClose r2.1 sessionId u.statusCode now startFails
    (r.1, r2.2 ++ r.2)
  else r2

/-- Outcome of `sendMessageFromSession`; `sent`/`sendFailed` carry the JID
handed to the transport's `sock.sendMessage`. -/
inductive SendOutcome where
  | errNoSession | errNotOnline | errEmptyText | errBadNumber
  | sent (jid : Str)
  | sendFailed (jid : Str)
deriving DecidableEq

/-- `sendMessageFromSession` from the source: require an online session and
non-empty text, strip `to` to its digits, reject digit counts outside 8–15,
and send to `digits@s.whatsapp.net` (`transportOk` models the transport
call's success). -/
def sendMessageFromSession (st : SupState) (sessionId : Str) (toRaw : Str)
    (text : Str) (transportOk : Bool) : SendOutcome :=
  match alookup st.sessions sessionId with
  | none => SendOutcome.errNoSession
  | some s =>
    if s.status ≠ SessionStatus.online then SendOutcome.errNotOnline
    else if text = [] ∨ trimStr text = [] then SendOutcome.errEmptyText
    else
      let digits := filterDigits toRaw
      if digits = [] ∨ digits.length < 8 ∨ 15 < digits.length then
        SendOutcome.errBadNumber
      else if transportOk then SendOutcome.sent (digits ++ pnSuffix)
      else SendOutcome.sendFailed (digits ++ pnSuffix)

/-- Recognizer for reconnect attempts in a trace. -/
def isStartAttempt : SupAction → Bool
  | SupAction.startAttempt _ => true
  | _ => false

/-- Number of reconnect attempts in a trace. -/
def countStartAttempts (tr : List SupAction) : Nat :=
  (tr.filter isStartAttempt).length

-- ------------------------------------------------------------------
-- helper lemmas about `filterDigits`
-- ------------------------------------------------------------------

theorem filterDigits_append (a b : Str) :
    filterDigits (a ++ b) = filterDigits a ++ filterDigits b := by
  simp [filterDigits]

theorem filterDigits_of_all_digits (x : Str) :
    (∀ c ∈ x, c.isDigit = true) → filterDigits x = x := by
  induction x with
  | nil => intro _; rfl
  | cons c cs ih =>
    intro h
    have hc : c.isDigit = true := h c (List.mem_cons_self c cs)
    have hcs : ∀ d ∈ cs, d.isDigit = true := fun d hd => h d (List.mem_cons_of_mem c hd)
    unfold filterDigits at ih ⊢
    rw [List.filter_cons, if_pos hc, ih hcs]

theorem filterDigits_pnSuffix : filterDigits pnSuffix = [] := by decide

/-- `normalizePhoneToJid` only depends on the digit content of its input. -/
theorem normalizePhoneToJid_eq (s : Str) :
    normalizePhoneToJid s =
      (if (filterDigits s).length = 9 then "51".toList ++ filterDigits s
       else filterDigits s) ++ pnSuffix := rfl

-- ------------------------------------------------------------------
-- helper lemmas about the resolver
-- ------------------------------------------------------------------

/-- A linked-identity JID is never a phone-domain JID. -/
theorem isLidJid_isPnJid_false (j : Str) (h : isLidJid j = true) :
    isPnJid j = false := by
  unfold isLidJid at h
  rw [Bool.and_eq_true] at h
  have hlid : ("@lid".toList : List Char) <:+ j :=
    List.isSuffixOf_iff_suffix.mp h.2
  cases hpn : isPnJid j with
  | false => rfl
  | true =>
    unfold isPnJid at hpn
    rw [Bool.and_eq_true] at hpn
    have hp : pnSuffix <:+ j := List.isSuffixOf_iff_suffix.mp hpn.2
    rcases List.suffix_or_suffix_of_suffix hlid hp with hcase | hcase
    · exact absurd hcase (by decide)
    · exact absurd hcase (by decide)

/-- The resolver on a LID with a truthy cache entry returns the cached phone
and the phone-domain address built from it, leaving the cache untouched. -/
theorem resolveJidAndPhone_cache_hit (lm : Option (Str → Option Str))
    (cache : List (Str × Str)) (j cp : Str) (hj : isLidJid j = true)
    (hc : alookup cache j = some cp) (hcp : cp ≠ []) :
    resolveJidAndPhone lm cache j = ⟨cp ++ pnSuffix, some cp, cache⟩ := by
  have hpn := isLidJid_isPnJid_false j hj
  simp [resolveJidAndPhone, hpn, hj, hc, hcp]

/-- The transport-mapping fallback only ever writes the key it was asked
about. -/
theorem resolveLidFallback_lookup_ne (lm : Option (Str → Option Str))
    (cache : List (Str × Str)) (j k : Str) (h : k ≠ j) :
    alookup (resolveLidFallback lm cache j).cache k = alookup cache k := by
  cases lm with
  | none => rfl
  | some getPN =>
    simp only [resolveLidFallback]
    cases getPN j with
    | none => rfl
    | some pnJid =>
      by_cases h1 : pnJid ≠ [] ∧ isPnJid pnJid = true
      · simp only [if_pos h1]
        cases extractPhoneFromPnJid pnJid with
        | none => rfl
        | some ex =>
          by_cases h2 : ex ≠ []
          · simp only [if_pos h2]
            exact alookup_aset_ne cache j k ex h
          · simp only [if_neg h2]
      · simp only [if_neg h1]

/-- The resolver never disturbs a truthy cache entry (its write-through only
fires on cache misses). -/
theorem resolveJidAndPhone_preserves_truthy (lm : Option (Str → Option Str))
    (cache : List (Str × Str)) (j k v : Str)
    (hk : alookup cache k = some v) (hv : v ≠ []) :
    alookup (resolveJidAndPhone lm cache j).cache k = some v := by
  by_cases hp : isPnJid j = true
  · simp [resolveJidAndPhone, hp, hk]
  · by_cases hl : isLidJid j = true
    · have hne : ∀ hj : alookup cache j = none ∨ alookup cache j = some [], k ≠ j := by
        intro hj hkj
        rcases hj with hj | hj
        · rw [hkj, hj] at hk; exact Option.noConfusion hk
        · rw [hkj, hj] at hk
          exact hv (Option.some.inj hk).symm
      simp only [resolveJidAndPhone, hp, hl, Bool.false_eq_true, if_false, if_true]
      cases hcj : alookup cache j with
      | none =>
        rw [resolveLidFallback_lookup_ne lm cache j k (hne (Or.inl hcj))]
        exact hk
      | some cp =>
        by_cases hcp : cp ≠ []
        · simp only [if_pos hcp]
          exact hk
        · simp only [if_neg hcp]
          push_neg at hcp
          subst hcp
          rw [resolveLidFallback_lookup_ne lm cache j k (hne (Or.inr hcj))]
          exact hk
    · simp [resolveJidAndPhone, hp, hl, hk]

-- ------------------------------------------------------------------
-- C10
-- ------------------------------------------------------------------

/-- C10: for every 9-digit phone string the phone-to-address normalization
yields the stable `"51"`-prefixed phone-domain address whose digit content has
11 digits, and for already-prefixed 10–15 digit numbers the normalization is
idempotent: `normalize (normalize x) = normalize x`. -/
theorem c10_normalize_roundtrip (x : Str) (hd : ∀ c ∈ x, c.isDigit = true) :
    (x.length = 9 →
      normalizePhoneToJid x = ("51".toList ++ x) ++ pnSuffix ∧
      (filterDigits (normalizePhoneToJid x)).length = 11 ∧
      normalizePhoneToJid (normalizePhoneToJid x) = normalizePhoneToJid x) ∧
    (10 ≤ x.length → x.length ≤ 15 →
      normalizePhoneToJid (normalizePhoneToJid x) = normalizePhoneToJid x) := by
  have hx : filterDigits x = x := filterDigits_of_all_digits x hd
  have h51 : filterDigits ("51".toList) = "51".toList := by decide
  constructor
  · intro h9
    have hform : normalizePhoneToJid x = ("51".toList ++ x) ++ pnSuffix := by
      rw [normalizePhoneToJid_eq, hx, if_pos h9]
    have hfd : filterDigits (normalizePhoneToJid x) = "51".toList ++ x := by
      rw [hform, filterDigits_append, filterDigits_append, h51, hx,
        filterDigits_pnSuffix, List.append_nil]
    have hlen : ("51".toList ++ x).length = 11 := by
      rw [List.length_append, h9]; rfl
    refine ⟨hform, ?_, ?_⟩
    · rw [hfd, hlen]
    · rw [normalizePhoneToJid_eq (normalizePhoneToJid x), hfd,
        if_neg (by omega : ¬ ("51".toList ++ x).length = 9), hform]
  · intro h10 h15
    have h9 : ¬ x.length = 9 := by omega
    have hform : normalizePhoneToJid x = x ++ pnSuffix := by
      rw [normalizePhoneToJid_eq, hx, if_neg h9]
    have hfd : filterDigits (normalizePhoneToJid x) = x := by
      rw [hform, filterDigits_append, hx, filterDigits_pnSuffix, List.append_nil]
    rw [normalizePhoneToJid_eq (normalizePhoneToJid x), hfd, if_neg h9, hform]

/-- C10 witness: the round-trip at the concrete 9-digit number `"936809481"`
and idempotence at the concrete 11-digit number `"51936809481"`. -/
theorem c10_normalize_roundtrip_witness :
    ("936809481".toList).length = 9 ∧
    normalizePhoneToJid ("936809481".toList)
      = ("51".toList ++ "936809481".toList) ++ pnSuffix ∧
    normalizePhoneToJid (normalizePhoneToJid ("51936809481".toList))
      = normalizePhoneToJid ("51936809481".toList) :=
  ⟨by decide,
   ((c10_normalize_roundtrip ("936809481".toList) (by decide)).1 (by decide)).1,
   (c10_normalize_roundtrip ("51936809481".toList) (by decide)).2
     (by decide) (by decide)⟩

-- ------------------------------------------------------------------
-- C1
-- ------------------------------------------------------------------

/-- C1 counterexample: an inbound direct message whose effective sender
address `"111@lid"` is a linked identity with no cache entry, while the
Bulk-Hint was observed 6000 ms ago (6 seconds, outside the 5000 ms window),
still gets a cache entry seeded from the hint (by the debug-block seeding,
which ignores the validity window) — refuting "a hint observed 6 seconds ago
never seeds the cache entry for that address". -/
theorem c1_counterexample :
    (7000 : Nat) - 1000 = 6000 ∧ ¬ ((7000 : Nat) - 1000 < 5000) ∧
    alookup ([] : List (Str × Str)) ("111@lid".toList) = none ∧
    alookup
      (processMessage none ("s1".toList)
        ⟨[], ⟨some ("51922222222@s.whatsapp.net".toList),
              some ("51922222222".toList), 1000⟩⟩
        ⟨some ("111@lid".toList), none, false, some ("M1".toList),
          some ⟨⟨some ("hola".toList), none⟩, none⟩⟩
        7000 ("notify".toList)).1.cache
      ("111@lid".toList)
      = some ("51922222222".toList) := by
  refine ⟨rfl, by decide, rfl, ?_⟩
  decide

/-- C1 (amended): the strictly-less-than-5000 ms window and the set-if-absent
guard govern only the effective-sender seeding step; the debug-block seeding
keyed on the conversation address ignores them.  Hence for a message whose
conversation address is not a linked identity (e.g. a group chat) and whose
effective sender is a linked-identity participant with no cache entry and no
transport mapping, the hint seeds the entry exactly when it is younger than
5000 ms — in particular a hint observed 6 seconds ago never seeds it. -/
theorem c1_hint_window_amended
    (sid : Str) (st : MsgState) (msg : WAMessage) (now : Nat) (mtype : Str)
    (r p bf bp : Str)
    (hr : msg.remoteJid = some r) (hrne : r ≠ []) (hrl : isLidJid r = false)
    (hp : msg.participant = some p) (hpne : p ≠ [])
    (hpl : isLidJid p = true)
    (hfm : msg.fromMe = false)
    (htxt : trimStr (extractText msg.content) ≠ [])
    (hnc : alookup st.cache p = none)
    (hbf : st.bulk.fromJid = some bf) (hbfne : bf ≠ [])
    (hbp : st.bulk.phone = some bp) (hbpne : bp ≠ []) :
    alookup (processMessage none sid st msg now mtype).1.cache p
      = (if now - st.bulk.seenAt < 5000 then some bp else none) := by
  have hpn := isLidJid_isPnJid_false p hpl
  have hbp' : (bp != []) = true := by simp [hbpne]
  have hbf' : (bf != []) = true := by simp [hbfne]
  simp only [processMessage, hr, hp, hfm, hrl, hpl, hbf, hbp, truthyOptStr,
    optStrVal, bulkPhoneVal, Bool.false_and, Bool.and_false, Bool.false_eq_true,
    if_false, if_neg hrne, if_neg hpne, if_neg htxt, hnc, Bool.not_false,
    hbp', hbf', Bool.and_true, Bool.true_and, ite_false, ite_true]
  by_cases hw : now - st.bulk.seenAt < 5000
  · simp only [hw, decide_True, ite_true, Bool.and_true, Bool.true_and,
      if_true]
    rw [resolveJidAndPhone_cache_hit none (aset st.cache p bp) p bp hpl
      (alookup_aset_self st.cache p bp) hbpne]
    exact alookup_aset_self st.cache p bp
  · simp only [hw, decide_False, ite_false, Bool.and_false, Bool.false_and,
      if_false, Bool.false_eq_true]
    simp [resolveJidAndPhone, hpn, hpl, hnc, resolveLidFallback]

/-- C1 witness: a group message from LID participant `"333@lid"` in chat
`"G1@g.us"`, with an 8-second-old hint, does not get seeded; the hypotheses
are discharged at the concrete input. -/
theorem c1_hint_window_amended_witness :
    alookup
      (processMessage none ("s1".toList)
        ⟨[], ⟨some ("51922222222@s.whatsapp.net".toList),
              some ("51922222222".toList), 1000⟩⟩
        ⟨some ("G1@g.us".toList), some ("333@lid".toList), false,
          some ("M4".toList), some ⟨⟨some ("hola".toList), none⟩, none⟩⟩
        9000 ("notify".toList)).1.cache
      ("333@lid".toList) = none :=
  c1_hint_window_amended ("s1".toList)
    ⟨[], ⟨some ("51922222222@s.whatsapp.net".toList),
          some ("51922222222".toList), 1000⟩⟩
    ⟨some ("G1@g.us".toList), some ("333@lid".toList), false,
      some ("M4".toList), some ⟨⟨some ("hola".toList), none⟩, none⟩⟩
    9000 ("notify".toList)
    ("G1@g.us".toList) ("333@lid".toList)
    ("51922222222@s.whatsapp.net".toList) ("51922222222".toList)
    rfl (by decide) (by decide) rfl (by decide) (by decide) rfl (by decide)
    rfl rfl (by decide) rfl (by decide)

-- ------------------------------------------------------------------
-- C2
-- ------------------------------------------------------------------

/-- C2 counterexample: the linked identity `"111@lid"` has the cache entry
`"51911111111"` when an inbound direct message from it is processed, yet —
because a Bulk-Hint with phone `"51922222222"` was recorded (arbitrarily long
ago) and the conversation address is the LID itself — the debug-block seeding
overwrites the entry before resolution and the payload carries the hint's
phone, not the pre-existing cached one. -/
theorem c2_counterexample :
    alookup [(("111@lid".toList : Str), ("51911111111".toList : Str))]
      ("111@lid".toList) = some ("51911111111".toList) ∧
    (processMessage none ("s1".toList)
        ⟨[(("111@lid".toList : Str), ("51911111111".toList : Str))],
          ⟨some ("51922222222@s.whatsapp.net".toList),
            some ("51922222222".toList), 1000⟩⟩
        ⟨some ("111@lid".toList), none, false, some ("M2".toList),
          some ⟨⟨some ("hola".toList), none⟩, none⟩⟩
        999000 ("notify".toList)).2
      = [MAction.persist,
         MAction.webhook
           ⟨"s1".toList, "51922222222".toList, some ("51922222222".toList),
            "hola".toList, "notify".toList, some ("M2".toList),
            "51922222222@s.whatsapp.net".toList, none⟩] ∧
    ("51922222222".toList : Str) ≠ ("51911111111".toList : Str) := by
  refine ⟨rfl, ?_, by decide⟩
  decide

/-- C2 (amended): the resolver itself never consults the Bulk-Hint: whenever
the effective sender is a linked identity with a truthy cache entry and the
conversation address is not itself a linked identity (so the window-ignoring
debug-block seeding cannot fire, e.g. any group message), processing leaves
the state untouched and the webhook payload carries exactly the cached phone
and the phone-domain address built from it.  For direct messages from a
linked-identity conversation address with a recorded hint, the entry is
overwritten before resolution (see the counterexample). -/
theorem c2_cached_resolution_amended
    (lm : Option (Str → Option Str)) (sid : Str) (st : MsgState)
    (msg : WAMessage) (now : Nat) (mtype : Str) (r p cp : Str)
    (hr : msg.remoteJid = some r) (hrne : r ≠ []) (hrl : isLidJid r = false)
    (hp : msg.participant = some p) (hpne : p ≠ [])
    (hpl : isLidJid p = true)
    (hfm : msg.fromMe = false)
    (htxt : trimStr (extractText msg.content) ≠ [])
    (hc : alookup st.cache p = some cp) (hcne : cp ≠ []) :
    processMessage lm sid st msg now mtype =
      (st, [MAction.webhook
        ⟨sid, cp, some cp, extractText msg.content, mtype, msg.msgId,
          cp ++ pnSuffix, some p⟩]) := by
  have hcp' : (cp != []) = true := by simp [hcne]
  simp only [processMessage, hr, hp, hfm, hrl, hc, truthyOptStr,
    Bool.false_and, Bool.false_eq_true, if_false, if_neg hrne, if_neg hpne,
    if_neg htxt, hcp', Bool.not_true, Bool.and_false, ite_false, ite_true]
  rw [resolveJidAndPhone_cache_hit lm st.cache p cp hpl hc hcne]
  simp [hcne]

/-- C2 witness: a group message whose LID participant `"444@lid"` has cache
entry `"51933333333"` resolves to that phone, untouched by the (stale or
fresh) hint. -/
theorem c2_cached_resolution_amended_witness :
    processMessage none ("s1".toList)
      ⟨[(("444@lid".toList : Str), ("51933333333".toList : Str))],
        ⟨some ("51922222222@s.whatsapp.net".toList),
          some ("51922222222".toList), 1000⟩⟩
      ⟨some ("G1@g.us".toList), some ("444@lid".toList), false,
        some ("M5".toList), some ⟨⟨some ("hola".toList), none⟩, none⟩⟩
      1500 ("notify".toList) =
      (⟨[(("444@lid".toList : Str), ("51933333333".toList : Str))],
        ⟨some ("51922222222@s.whatsapp.net".toList),
          some ("51922222222".toList), 1000⟩⟩,
       [MAction.webhook
         ⟨"s1".toList, "51933333333".toList, some ("51933333333".toList),
          "hola".toList, "notify".toList, some ("M5".toList),
          "51933333333".toList ++ pnSuffix, some ("444@lid".toList)⟩]) :=
  c2_cached_resolution_amended none ("s1".toList)
    ⟨[(("444@lid".toList : Str), ("51933333333".toList : Str))],
      ⟨some ("51922222222@s.whatsapp.net".toList),
        some ("51922222222".toList), 1000⟩⟩
    ⟨some ("G1@g.us".toList), some ("444@lid".toList), false,
      some ("M5".toList), some ⟨⟨some ("hola".toList), none⟩, none⟩⟩
    1500 ("notify".toList)
    ("G1@g.us".toList) ("444@lid".toList) ("51933333333".toList)
    rfl (by decide) (by decide) rfl (by decide) (by decide) rfl (by decide)
    rfl (by decide)

-- ------------------------------------------------------------------
-- C9
-- ------------------------------------------------------------------

/-- C9 counterexample: the entry `"222@lid" ↦ "51911111111"` is overwritten
with the hint's phone `"51922222222"` by the debug-block seeding on a direct
message from that LID — refuting "once set, no subsequent operation
overwrites that entry with a different phone". -/
theorem c9_counterexample :
    alookup [(("222@lid".toList : Str), ("51911111111".toList : Str))]
      ("222@lid".toList) = some ("51911111111".toList) ∧
    alookup
      (processMessage none ("s1".toList)
        ⟨[(("222@lid".toList : Str), ("51911111111".toList : Str))],
          ⟨some ("51922222222@s.whatsapp.net".toList),
            some ("51922222222".toList), 1000⟩⟩
        ⟨some ("222@lid".toList), none, false, some ("M6".toList),
          some ⟨⟨some ("hola".toList), none⟩, none⟩⟩
        2000 ("notify".toList)).1.cache
      ("222@lid".toList) = some ("51922222222".toList) ∧
    ("51911111111".toList : Str) ≠ ("51922222222".toList : Str) := by
  refine ⟨rfl, ?_, by decide⟩
  decide

/-- C9 (amended): the effective-sender seeding and the resolver write-through
are set-if-absent, so as long as the debug-block path cannot fire — i.e. the
conversation address is not a linked identity — every truthy cache entry is
preserved by message processing; but the debug-block path on direct
linked-identity chats overwrites unconditionally (see the counterexample). -/
theorem c9_no_overwrite_amended
    (lm : Option (Str → Option Str)) (sid : Str) (st : MsgState)
    (msg : WAMessage) (now : Nat) (mtype : Str) (k v : Str)
    (hr : ∀ r, msg.remoteJid = some r → isLidJid r = false)
    (hk : alookup st.cache k = some v) (hv : v ≠ []) :
    alookup (processMessage lm sid st msg now mtype).1.cache k = some v := by
  cases hrem : msg.remoteJid with
  | none => simpa [processMessage, hrem] using hk
  | some r =>
    have hrl := hr r hrem
    by_cases hre : r = []
    · simpa [processMessage, hrem, hre] using hk
    · simp only [processMessage, hrem, hrl, Bool.false_and, Bool.false_eq_true,
        if_false, if_neg hre, ite_true, ite_false]
      by_cases hfm : msg.fromMe
      · simpa [hfm] using hk
      · simp only [hfm, if_false, Bool.false_eq_true, ite_false]
        by_cases htx : trimStr (extractText msg.content) = []
        · simpa [htx] using hk
        · simp only [htx, if_false, ite_false, if_neg htx]
          set j := (match
            (match msg.participant with
              | some pp => if pp = [] then none else some pp
              | none => none) with
            | some pp => pp
            | none => r) with hj
          by_cases hg : (isLidJid j && truthyOptStr st.bulk.phone &&
              truthyOptStr st.bulk.fromJid &&
              decide (now - st.bulk.seenAt < 5000) &&
              !truthyOptStr (alookup st.cache j)) = true
          · have hkj : k ≠ j := by
              intro hkeq
              have htr : truthyOptStr (alookup st.cache j) = true := by
                rw [← hkeq, hk]
                simp [truthyOptStr, hv]
              rw [Bool.and_eq_true] at hg
              rw [htr] at hg
              simp at hg
            simp only [hg, ite_true, if_pos hg]
            exact resolveJidAndPhone_preserves_truthy lm _ j k v
              (by rw [alookup_aset_ne st.cache j k _ hkj]; exact hk) hv
          · simp only [hg, ite_false, if_neg hg]
            exact resolveJidAndPhone_preserves_truthy lm _ j k v hk hv

/-- C9 witness: a group message from a LID participant leaves the unrelated
truthy entry `"555@lid" ↦ "51944444444"` intact. -/
theorem c9_no_overwrite_amended_witness :
    alookup
      (processMessage none ("s1".toList)
        ⟨[(("555@lid".toList : Str), ("51944444444".toList : Str))],
          ⟨some ("51922222222@s.whatsapp.net".toList),
            some ("51922222222".toList), 1000⟩⟩
        ⟨some ("G1@g.us".toList), some ("666@lid".toList), false,
          some ("M7".toList), some ⟨⟨some ("hola".toList), none⟩, none⟩⟩
        1500 ("notify".toList)).1.cache
      ("555@lid".toList) = some ("51944444444".toList) :=
  c9_no_overwrite_amended none ("s1".toList)
    ⟨[(("555@lid".toList : Str), ("51944444444".toList : Str))],
      ⟨some ("51922222222@s.whatsapp.net".toList),
        some ("51922222222".toList), 1000⟩⟩
    ⟨some ("G1@g.us".toList), some ("666@lid".toList), false,
      some ("M7".toList), some ⟨⟨some ("hola".toList), none⟩, none⟩⟩
    1500 ("notify".toList)
    ("555@lid".toList) ("51944444444".toList)
    (by intro rr hrr; cases hrr; decide) rfl (by decide)

-- ------------------------------------------------------------------
-- C8
-- ------------------------------------------------------------------

/-- C8 counterexample: a direct message from `"111@lid"` with no recorded
Bulk-Hint but a transport mapping for it makes the resolver write the entry
`"111@lid" ↦ "51936809481"` through into the cache, yet the trace contains no
persistence action — refuting "every update to the identity cache … triggers
a … rewrite … to durable storage". -/
theorem c8_counterexample :
    (processMessage
        (some (fun j => if j = "111@lid".toList
          then some ("51936809481@s.whatsapp.net".toList) else none))
        ("s1".toList)
        ⟨[], ⟨none, none, 0⟩⟩
        ⟨some ("111@lid".toList), none, false, some ("M3".toList),
          some ⟨⟨some ("hola".toList), none⟩, none⟩⟩
        7000 ("notify".toList)).1.cache
      = [(("111@lid".toList : Str), ("51936809481".toList : Str))] ∧
    (processMessage
        (some (fun j => if j = "111@lid".toList
          then some ("51936809481@s.whatsapp.net".toList) else none))
        ("s1".toList)
        ⟨[], ⟨none, none, 0⟩⟩
        ⟨some ("111@lid".toList), none, false, some ("M3".toList),
          some ⟨⟨some ("hola".toList), none⟩, none⟩⟩
        7000 ("notify".toList)).2
      = [MAction.webhook
          ⟨"s1".toList, "51936809481".toList, some ("51936809481".toList),
           "hola".toList, "notify".toList, some ("M3".toList),
           "51936809481@s.whatsapp.net".toList, none⟩] := by
  constructor
  · decide
  · decide

/-- C8 (amended): a durable rewrite of the cache is triggered exactly by the
debug-block seeding — i.e. iff the conversation address is a truthy
linked-identity JID and a Bulk-Hint has been recorded; the resolver's
write-through from the transport mapping and the effective-sender seeding
update only the in-memory map and never persist. -/
theorem c8_persist_amended
    (lm : Option (Str → Option Str)) (sid : Str) (st : MsgState)
    (msg : WAMessage) (now : Nat) (mtype : Str) :
    MAction.persist ∈ (processMessage lm sid st msg now mtype).2 ↔
      ∃ r, msg.remoteJid = some r ∧ r ≠ [] ∧
        (isLidJid r && truthyOptStr st.bulk.fromJid &&
          truthyOptStr st.bulk.phone && (st.bulk.seenAt != 0)) = true := by
  cases hrem : msg.remoteJid with
  | none => simp [processMessage, hrem]
  | some r =>
    by_cases hre : r = []
    · simp [processMessage, hrem, hre]
    · have key : MAction.persist ∈ (processMessage lm sid st msg now mtype).2 ↔
          (isLidJid r && truthyOptStr st.bulk.fromJid &&
            truthyOptStr st.bulk.phone && (st.bulk.seenAt != 0)) = true := by
        by_cases hg : (isLidJid r && truthyOptStr st.bulk.fromJid &&
            truthyOptStr st.bulk.phone && (st.bulk.seenAt != 0)) = true
        · simp only [processMessage, hrem, if_neg hre, hg, ite_true, iff_true]
          split
          · simp
          · split
            · simp
            · simp
        · have hg' : (isLidJid r && truthyOptStr st.bulk.fromJid &&
              truthyOptStr st.bulk.phone && (st.bulk.seenAt != 0)) = false := by
            cases hb : (isLidJid r && truthyOptStr st.bulk.fromJid &&
                truthyOptStr st.bulk.phone && (st.bulk.seenAt != 0)) with
            | false => rfl
            | true => exact absurd hb hg
          simp only [processMessage, hrem, if_neg hre, hg', Bool.false_eq_true,
            ite_false, iff_false]
          intro hmem
          revert hmem
          split
          · simp
          · split
            · simp
            · simp
      rw [key]
      constructor
      · intro hgt
        exact ⟨r, rfl, hre, hgt⟩
      · rintro ⟨r', hr', hne', hg'⟩
        obtain rfl : r = r' := Option.some.inj hr'
        exact hg'

-- ------------------------------------------------------------------
-- C3
-- ------------------------------------------------------------------

/-- C3 counterexample: with an online session, sending to the 9-digit number
`"936809481"` invokes the transport on `"936809481@s.whatsapp.net"`, whereas
the Address Normalizer's rules (which the claim requires) would produce
`"51936809481@s.whatsapp.net"` — the send path never applies the default
country-code prefix (and never passes a domain-qualified `to` through
unchanged: it strips it to digits). -/
theorem c3_counterexample :
    sendMessageFromSession
      ⟨[(("s1".toList : Str),
          ⟨"s1".toList, SessionStatus.online, 3, none, none, 0, 0⟩)],
        ["s1".toList], 4⟩
      ("s1".toList) ("936809481".toList) ("hi".toList) true
      = SendOutcome.sent ("936809481@s.whatsapp.net".toList) ∧
    normalizePhoneToJid ("936809481".toList)
      = "51936809481@s.whatsapp.net".toList ∧
    ("936809481@s.whatsapp.net".toList : Str)
      ≠ ("51936809481@s.whatsapp.net".toList : Str) := by
  refine ⟨by decide, by decide, by decide⟩

/-- C3 (amended): with an online session and non-empty text, `to` is always
reduced to its digit content (no domain pass-through, no country-code
prefixing); a digit count outside 8–15 is rejected before the transport send;
otherwise the transport is invoked on `digits@s.whatsapp.net`. -/
theorem c3_send_amended
    (st : SupState) (sid toRaw text : Str) (tok : Bool) (s : SessionS)
    (hs : alookup st.sessions sid = some s)
    (hst : s.status = SessionStatus.online)
    (ht1 : text ≠ []) (ht2 : trimStr text ≠ []) :
    sendMessageFromSession st sid toRaw text tok =
      (if filterDigits toRaw = [] ∨ (filterDigits toRaw).length < 8 ∨
          15 < (filterDigits toRaw).length
       then SendOutcome.errBadNumber
       else if tok then SendOutcome.sent (filterDigits toRaw ++ pnSuffix)
       else SendOutcome.sendFailed (filterDigits toRaw ++ pnSuffix)) := by
  simp [sendMessageFromSession, hs, hst, ht1, ht2]

/-- C3 witness: at the concrete online state, the 9-digit `to` is accepted
as-is (9 digits lie inside 8–15) and sent without the country prefix. -/
theorem c3_send_amended_witness :
    sendMessageFromSession
      ⟨[(("s1".toList : Str),
          ⟨"s1".toList, SessionStatus.online, 3, none, none, 0, 0⟩)],
        ["s1".toList], 4⟩
      ("s1".toList) ("+51 936-809-481".toList) ("hi".toList) true
      = (if filterDigits ("+51 936-809-481".toList) = [] ∨
            (filterDigits ("+51 936-809-481".toList)).length < 8 ∨
            15 < (filterDigits ("+51 936-809-481".toList)).length
         then SendOutcome.errBadNumber
         else if true then
           SendOutcome.sent (filterDigits ("+51 936-809-481".toList) ++ pnSuffix)
         else
           SendOutcome.sendFailed
             (filterDigits ("+51 936-809-481".toList) ++ pnSuffix)) :=
  c3_send_amended
    ⟨[(("s1".toList : Str),
        ⟨"s1".toList, SessionStatus.online, 3, none, none, 0, 0⟩)],
      ["s1".toList], 4⟩
    ("s1".toList) ("+51 936-809-481".toList) ("hi".toList) true
    ⟨"s1".toList, SessionStatus.online, 3, none, none, 0, 0⟩
    rfl rfl (by decide) (by decide)

-- ------------------------------------------------------------------
-- C6
-- ------------------------------------------------------------------

/-- C6 counterexample: with an empty session table but the credential folder
for `"s1"` present on disk, `clearSession` deletes the durable credentials —
refuting "for every sessionId with no session present in the table,
logoutSession … deletes no durable credentials". -/
theorem c6_counterexample :
    clearSession ⟨[], ["s1".toList], 0⟩ ("s1".toList)
      = (⟨[], [], 0⟩, [SupAction.deleteCreds ("s1".toList)]) := by
  decide

/-- C6 (amended): when no session is present, `logoutSession` closes nothing
and removes nothing from the table, but it still deletes the identifier's
durable credentials whenever they exist on disk — credential deletion is
unconditional on table presence. -/
theorem c6_logout_amended
    (st : SupState) (sid : Str)
    (habs : alookup st.sessions sid = none) :
    (clearSession st sid).1.sessions = st.sessions ∧
    (clearSession st sid).2 =
      (if st.credsOnDisk.contains sid = true
       then [SupAction.deleteCreds sid] else []) ∧
    (∀ n, SupAction.closeSock n ∉ (clearSession st sid).2) ∧
    (∀ x, SupAction.removeSession x ∉ (clearSession st sid).2) := by
  by_cases hcred : sid ∈ st.credsOnDisk
  · simp [clearSession, habs, hcred]
  · simp [clearSession, habs, hcred]

/-- C6 witness: concrete absent-session state with credentials on disk. -/
theorem c6_logout_amended_witness :
    (clearSession ⟨[], ["s2".toList], 7⟩ ("s2".toList)).1.sessions = [] ∧
    (clearSession ⟨[], ["s2".toList], 7⟩ ("s2".toList)).2 =
      (if (["s2".toList] : List Str).contains ("s2".toList) = true
       then [SupAction.deleteCreds ("s2".toList)] else []) ∧
    (∀ n, SupAction.closeSock n ∉
      (clearSession ⟨[], ["s2".toList], 7⟩ ("s2".toList)).2) ∧
    (∀ x, SupAction.removeSession x ∉
      (clearSession ⟨[], ["s2".toList], 7⟩ ("s2".toList)).2) :=
  c6_logout_amended ⟨[], ["s2".toList], 7⟩ ("s2".toList) rfl

-- ------------------------------------------------------------------
-- C5
-- ------------------------------------------------------------------

/-- C5: a second `startSession` for a session in `starting | qr | online`
returns the identical session instance (same socket handle, same connection
state), creates no new socket (empty action trace, `nextSockId` untouched),
and at most updates the webhook URL and `updatedAt`. -/
theorem c5_startSession_idempotent_active
    (st : SupState) (sid : Str) (url : Option Str) (now : Nat) (f : Bool)
    (s : SessionS)
    (hv : validSessionId sid = true)
    (hs : alookup st.sessions sid = some s)
    (hst : s.status = SessionStatus.online ∨ s.status = SessionStatus.qr ∨
      s.status = SessionStatus.starting) :
    startSession st sid url now f =
      ({ st with sessions := aset st.sessions sid (maybeUpdateWebhook s url now) },
        [], StartResult.reused (maybeUpdateWebhook s url now)) ∧
    (maybeUpdateWebhook s url now).sockId = s.sockId ∧
    (maybeUpdateWebhook s url now).status = s.status ∧
    (maybeUpdateWebhook s url now).lastQr = s.lastQr ∧
    (maybeUpdateWebhook s url now).sessionId = s.sessionId ∧
    (maybeUpdateWebhook s url now).createdAt = s.createdAt := by
  have hsock : (maybeUpdateWebhook s url now).sockId = s.sockId := by
    unfold maybeUpdateWebhook; split <;> rfl
  have hstat : (maybeUpdateWebhook s url now).status = s.status := by
    unfold maybeUpdateWebhook; split <;> rfl
  have hqr : (maybeUpdateWebhook s url now).lastQr = s.lastQr := by
    unfold maybeUpdateWebhook; split <;> rfl
  have hid : (maybeUpdateWebhook s url now).sessionId = s.sessionId := by
    unfold maybeUpdateWebhook; split <;> rfl
  have hcr : (maybeUpdateWebhook s url now).createdAt = s.createdAt := by
    unfold maybeUpdateWebhook; split <;> rfl
  refine ⟨?_, hsock, hstat, hqr, hid, hcr⟩
  simp only [startSession, hv, Bool.true_eq_false, if_false, hs]
  rw [hstat, if_pos hst]

/-- C5 witness: restarting the concrete online session `"s1"` with a new
webhook URL reuses the instance. -/
theorem c5_startSession_idempotent_active_witness :
    startSession
      ⟨[(("s1".toList : Str),
          ⟨"s1".toList, SessionStatus.online, 3, none, none, 0, 0⟩)],
        ["s1".toList], 4⟩
      ("s1".toList) (some ("http://w".toList)) 50 false =
      ({ sessions :=
          aset [(("s1".toList : Str),
            ⟨"s1".toList, SessionStatus.online, 3, none, none, 0, 0⟩)]
            ("s1".toList)
            (maybeUpdateWebhook
              ⟨"s1".toList, SessionStatus.online, 3, none, none, 0, 0⟩
              (some ("http://w".toList)) 50),
          credsOnDisk := ["s1".toList], nextSockId := 4 },
        [], StartResult.reused
          (maybeUpdateWebhook
            ⟨"s1".toList, SessionStatus.online, 3, none, none, 0, 0⟩
            (some ("http://w".toList)) 50)) ∧
    (maybeUpdateWebhook ⟨"s1".toList, SessionStatus.online, 3, none, none, 0, 0⟩
      (some ("http://w".toList)) 50).sockId = 3 ∧
    (maybeUpdateWebhook ⟨"s1".toList, SessionStatus.online, 3, none, none, 0, 0⟩
      (some ("http://w".toList)) 50).status = SessionStatus.online ∧
    (maybeUpdateWebhook ⟨"s1".toList, SessionStatus.online, 3, none, none, 0, 0⟩
      (some ("http://w".toList)) 50).lastQr = none ∧
    (maybeUpdateWebhook ⟨"s1".toList, SessionStatus.online, 3, none, none, 0, 0⟩
      (some ("http://w".toList)) 50).sessionId = "s1".toList ∧
    (maybeUpdateWebhook ⟨"s1".toList, SessionStatus.online, 3, none, none, 0, 0⟩
      (some ("http://w".toList)) 50).createdAt = 0 :=
  c5_startSession_idempotent_active
    ⟨[(("s1".toList : Str),
        ⟨"s1".toList, SessionStatus.online, 3, none, none, 0, 0⟩)],
      ["s1".toList], 4⟩
    ("s1".toList) (some ("http://w".toList)) 50 false
    ⟨"s1".toList, SessionStatus.online, 3, none, none, 0, 0⟩
    (by decide) rfl (Or.inl rfl)

-- ------------------------------------------------------------------
-- C4
-- ------------------------------------------------------------------

/-- C4: on a logged-out closure (status code 401) of a present session with
credentials on disk, the handler emits, in order: status → `disconnected`,
socket close, removal from the table, durable-credential deletion, and only
then the fresh start attempt — so credential deletion completes before the
start attempt begins (both `clearSession`'s `rmSync` and the handler run
synchronously before `startSession` is invoked). -/
theorem c4_loggedout_wipes_before_restart
    (st : SupState) (sid : Str) (now : Nat) (f : Bool) (s : SessionS)
    (hs : alookup st.sessions sid = some s)
    (hcred : sid ∈ st.credsOnDisk) :
    ∃ rest,
      (handleConnectionUpdate st sid
          ⟨none, some ConnState.connClose, some DisconnectReasonLoggedOut⟩
          now f).2 =
        [SupAction.setStatus sid SessionStatus.disconnected,
         SupAction.closeSock s.sockId,
         SupAction.removeSession sid,
         SupAction.deleteCreds sid,
         SupAction.startAttempt sid] ++ rest := by
  have key :
      (handleConnectionUpdate st sid
          ⟨none, some ConnState.connClose, some DisconnectReasonLoggedOut⟩
          now f).2 =
        [SupAction.setStatus sid SessionStatus.disconnected,
         SupAction.closeSock s.sockId,
         SupAction.removeSession sid,
         SupAction.deleteCreds sid,
         SupAction.startAttempt sid] ++
        (startSession
          (clearSession
            (updateSession st sid
              (fun s0 => { s0 with status := SessionStatus.disconnected,
                                   updatedAt := now })) sid).1
          sid s.webhookUrl now f).2.1 := by
    simp [handleConnectionUpdate, handleClose, clearSession, updateSession,
      alookup_aupdate_self, hs, hcred, DisconnectReasonLoggedOut]
  exact ⟨_, key⟩

/-- C4 witness: the wipe-then-restart order at a concrete online session. -/
theorem c4_loggedout_wipes_before_restart_witness :
    ∃ rest,
      (handleConnectionUpdate
          ⟨[(("s1".toList : Str),
              ⟨"s1".toList, SessionStatus.online, 3, none, none, 0, 0⟩)],
            ["s1".toList], 4⟩
          ("s1".toList)
          ⟨none, some ConnState.connClose, some DisconnectReasonLoggedOut⟩
          60 false).2 =
        [SupAction.setStatus ("s1".toList) SessionStatus.disconnected,
         SupAction.closeSock 3,
         SupAction.removeSession ("s1".toList),
         SupAction.deleteCreds ("s1".toList),
         SupAction.startAttempt ("s1".toList)] ++ rest :=
  c4_loggedout_wipes_before_restart
    ⟨[(("s1".toList : Str),
        ⟨"s1".toList, SessionStatus.online, 3, none, none, 0, 0⟩)],
      ["s1".toList], 4⟩
    ("s1".toList) 60 false
    ⟨"s1".toList, SessionStatus.online, 3, none, none, 0, 0⟩
    rfl (by decide)

-- ------------------------------------------------------------------
-- C7
-- ------------------------------------------------------------------

/-- C7: on a transient closure (status code neither 401 nor 515) of a present
session, exactly one rebuild attempt is issued, no durable credentials are
deleted (the rebuild reuses them), the status passes through `disconnected`,
and if the rebuild attempt fails the session ends in `error` (no further
retry appears in the trace). -/
theorem c7_transient_single_retry
    (st : SupState) (sid : Str) (now : Nat) (f : Bool) (s : SessionS) (c : Int)
    (hv : validSessionId sid = true)
    (hs : alookup st.sessions sid = some s)
    (hcred : sid ∈ st.credsOnDisk)
    (h401 : c ≠ DisconnectReasonLoggedOut) (h515 : c ≠ (515 : Int)) :
    countStartAttempts
        (handleConnectionUpdate st sid ⟨none, some ConnState.connClose, some c⟩
          now f).2 = 1 ∧
    (∀ x, SupAction.deleteCreds x ∉
        (handleConnectionUpdate st sid ⟨none, some ConnState.connClose, some c⟩
          now f).2) ∧
    (handleConnectionUpdate st sid ⟨none, some ConnState.connClose, some c⟩
        now f).1.credsOnDisk = st.credsOnDisk ∧
    SupAction.setStatus sid SessionStatus.disconnected ∈
      (handleConnectionUpdate st sid ⟨none, some ConnState.connClose, some c⟩
        now f).2 ∧
    (f = true →
      alookup (handleConnectionUpdate st sid
          ⟨none, some ConnState.connClose, some c⟩ now f).1.sessions sid
        = some { s with status := SessionStatus.error, updatedAt := now }) := by
  cases f with
  | true =>
    refine ⟨?_, ?_, ?_, ?_, ?_⟩ <;>
      simp [handleConnectionUpdate, handleClose, startSession, startFresh,
        maybeUpdateWebhook, updateSession, insertCred, countStartAttempts,
        isStartAttempt, alookup_aupdate_self, alookup_aset_self, hv, hs, hcred,
        h401, h515]
  | false =>
    refine ⟨?_, ?_, ?_, ?_, ?_⟩ <;>
      simp [handleConnectionUpdate, handleClose, startSession, startFresh,
        maybeUpdateWebhook, updateSession, insertCred, countStartAttempts,
        isStartAttempt, alookup_aupdate_self, alookup_aset_self, hv, hs, hcred,
        h401, h515]

/-- C7 witness: a transient closure (code 408) of a concrete online session
with a failing rebuild ends in `error` after exactly one attempt. -/
theorem c7_transient_single_retry_witness :
    countStartAttempts
        (handleConnectionUpdate
          ⟨[(("s1".toList : Str),
              ⟨"s1".toList, SessionStatus.online, 3, none, none, 0, 0⟩)],
            ["s1".toList], 4⟩
          ("s1".toList) ⟨none, some ConnState.connClose, some 408⟩
          70 true).2 = 1 ∧
    (∀ x, SupAction.deleteCreds x ∉
        (handleConnectionUpdate
          ⟨[(("s1".toList : Str),
              ⟨"s1".toList, SessionStatus.online, 3, none, none, 0, 0⟩)],
            ["s1".toList], 4⟩
          ("s1".toList) ⟨none, some ConnState.connClose, some 408⟩
          70 true).2) ∧
    (handleConnectionUpdate
        ⟨[(("s1".toList : Str),
            ⟨"s1".toList, SessionStatus.online, 3, none, none, 0, 0⟩)],
          ["s1".toList], 4⟩
        ("s1".toList) ⟨none, some ConnState.connClose, some 408⟩
        70 true).1.credsOnDisk = ["s1".toList] ∧
    SupAction.setStatus ("s1".toList) SessionStatus.disconnected ∈
      (handleConnectionUpdate
        ⟨[(("s1".toList : Str),
            ⟨"s1".toList, SessionStatus.online, 3, none, none, 0, 0⟩)],
          ["s1".toList], 4⟩
        ("s1".toList) ⟨none, some ConnState.connClose, some 408⟩
        70 true).2 ∧
    (true = true →
      alookup (handleConnectionUpdate
          ⟨[(("s1".toList : Str),
              ⟨"s1".toList, SessionStatus.online, 3, none, none, 0, 0⟩)],
            ["s1".toList], 4⟩
          ("s1".toList) ⟨none, some ConnState.connClose, some 408⟩
          70 true).1.sessions ("s1".toList)
        = some { (⟨"s1".toList, SessionStatus.online, 3, none, none, 0, 0⟩ : SessionS) with
            status := SessionStatus.error, updatedAt := 70 }) :=
  c7_transient_single_retry
    ⟨[(("s1".toList : Str),
        ⟨"s1".toList, SessionStatus.online, 3, none, none, 0, 0⟩)],
      ["s1".toList], 4⟩
    ("s1".toList) 70 true
    ⟨"s1".toList, SessionStatus.online, 3, none, none, 0, 0⟩
    408 (by decide) rfl (by decide) (by decide) (by decide)
